import Mathlib

/-!
Shallow embedding of `supracon_squid.py` (SupraCon SQUID serial driver):
value codec, frame/opcode construction, echo-validated exchange primitives,
capability-gated channel operations, device open/close lifecycle, and the
serial-port scanner.  The device on the other end of the serial line is
modelled as a pure responder `Frame → Frame`; each operation additionally
returns the list of 4-byte request frames it wrote, so that "performs no
I/O" and frame-ordering properties are statable.  Python exceptions are
modelled with `Except Err`.  Real values are modelled as exact rationals.
-/

namespace SupraCon

/-- One 4-byte wire frame: address, opcode, two data bytes. -/
structure Frame where
  b0 : Nat
  b1 : Nat
  b2 : Nat
  b3 : Nat
deriving DecidableEq, Repr

/-- Python exceptions raised by the driver. -/
inductive Err where
  | valueError
  | bytesWarning
  | connectionError
  | indexError
  | keyError
  | overflowError
  | zeroDivisionError
  | serialException
deriving DecidableEq, Repr

instance {ε α : Type} [DecidableEq ε] [DecidableEq α] : DecidableEq (Except ε α)
  | .error e, .error f => decidable_of_iff (e = f) (by simp)
  | .error _, .ok _ => .isFalse (by simp)
  | .ok _, .error _ => .isFalse (by simp)
  | .ok a, .ok b => decidable_of_iff (a = b) (by simp)

/-- Python's built-in `round`: round half to even (banker's rounding). -/
def pyRound (q : ℚ) : ℤ :=
  let n : ℤ := ⌊q⌋
  let r : ℚ := q - n
  if r < 1/2 then n
  else if 1/2 < r then n + 1
  else if n % 2 = 0 then n else n + 1

/-- `_map(x, minimum, maximum)`: encode a bounded real to a 16-bit
big-endian code, returned as the two bytes `(hi, lo)`.  Raises
`ValueError` out of range; the `to_bytes` overflow and the float
division by zero of the original are modelled explicitly. -/
def _map (x minimum maximum : ℚ) : Except Err (Nat × Nat) :=
  if minimum ≤ x ∧ x ≤ maximum then
    if maximum - minimum = 0 then .error .zeroDivisionError
    else
      let c : ℤ := pyRound ((x - minimum) / (maximum - minimum) * 0xffff)
      if c < 0 ∨ 0xffff < c then .error .overflowError
      else .ok (c.toNat / 0x100, c.toNat % 0x100)
  else .error .valueError

/-- `_unmap(x, minimum, maximum)`: decode two big-endian bytes back to a
real value in `[minimum, maximum]`. -/
def _unmap (b : Nat × Nat) (minimum maximum : ℚ) : ℚ :=
  ((b.1 * 0x100 + b.2 : ℕ) : ℚ) / 0x10000 * (maximum - minimum) + minimum

/-- Evaluation of the codec at zero on the symmetric ±2.5 range:
`round(0.5 * 65535) = 32768` by round-half-to-even, bytes `(0x80, 0x00)`. -/
theorem map_zero_sym : _map 0 (-(5/2)) (5/2) = .ok (0x80, 0x00) := by
  have h : pyRound (65535/2) = 32768 := by norm_num [pyRound]
  norm_num [_map, h]
  decide

/-- Evaluation of the codec at zero on the `[0, 250]` detector-bias range. -/
theorem map_zero_250 : _map 0 0 250 = .ok (0x00, 0x00) := by
  have h : pyRound 0 = 0 := by norm_num [pyRound]
  norm_num [_map, h]

/-- The five-bit action codes of `_Actions`. -/
def DAC_OUTPUT : Nat := 0x01

def ADC_INPUT_1 : Nat := 0x02

def ADC_INPUT_95 : Nat := 0x03

def SET_FLL_MODE : Nat := 0x04

def SWITCH_AC_FLUX : Nat := 0x05

def SQUID_HEATER_SWITCH : Nat := 0x06

def START_AUTOTUNE : Nat := 0x07

def READ_NONVOLATILE_MEMORY : Nat := 0x08

def WRITE_NONVOLATILE_MEMORY : Nat := 0x09

def SWITCH_TEST_IN : Nat := 0x0A

def SWITCH_FEEDBACK : Nat := 0x0B

def CHANGE_INTERNAL_AC_FLUX_AMPLITUDE : Nat := 0x0C

def SET_DETECTOR_HEATER_CURRENT : Nat := 0x0D

/-- The `_DACOutput` sub-parameter enumeration. -/
inductive DACOutput where
  | DC_BIAS
  | DC_FLUX
  | BIAS
  | OFFSET
  | FLUX
deriving DecidableEq, Repr

def DACOutput.val : DACOutput → Nat
  | .DC_BIAS => 0
  | .DC_FLUX => 1
  | .BIAS => 2
  | .OFFSET => 3
  | .FLUX => 4

/-- The `_FLLMode` sub-parameter enumeration. -/
inductive FLLMode where
  | FLL_MODE
  | RESET_MODE
  | FAST_RESET_MODE
deriving DecidableEq, Repr

def FLLMode.val : FLLMode → Nat
  | .FLL_MODE => 0
  | .RESET_MODE => 1
  | .FAST_RESET_MODE => 2

/-- A dynamically-typed sub-parameter as passed to `_command`: either a
plain integer, a `_DACOutput` member or an `_FLLMode` member.  Python's
`IntEnum` members compare equal to their integer value but are
distinguished by `isinstance`. -/
inductive Param where
  | int (n : ℤ)
  | dac (d : DACOutput)
  | fll (m : FLLMode)
deriving DecidableEq, Repr

/-- The integer value of a sub-parameter (Python `int(parameter)`). -/
def Param.val : Param → ℤ
  | .int n => n
  | .dac d => d.val
  | .fll m => m.val

/-- Python `isinstance(parameter, _DACOutput)`. -/
def Param.isDAC : Param → Bool
  | .dac _ => true
  | _ => false

/-- Python `isinstance(parameter, _FLLMode)`. -/
def Param.isFLL : Param → Bool
  | .fll _ => true
  | _ => false

/-- `_command(action, parameter=0)`: build the opcode byte
`(action << 3) | parameter`, validating the sub-parameter against the
action-specific legality rule; any fall-through raises `ValueError`. -/
def _command (action : Nat) (parameter : Param := .int 0) : Except Err Nat :=
  if action = DAC_OUTPUT ∧ parameter.isDAC then
    .ok ((action <<< 3) ||| parameter.val.toNat)
  else if action = ADC_INPUT_1 ∨ action = ADC_INPUT_95 ∨ action = START_AUTOTUNE ∨
      action = READ_NONVOLATILE_MEMORY ∨ action = WRITE_NONVOLATILE_MEMORY ∨
      action = SWITCH_TEST_IN ∨ action = CHANGE_INTERNAL_AC_FLUX_AMPLITUDE then
    .ok (action <<< 3)
  else if action = SET_FLL_MODE ∧ parameter.isFLL then
    .ok ((action <<< 3) ||| parameter.val.toNat)
  else if action = SWITCH_AC_FLUX then
    .ok ((action <<< 3) ||| 1)
  else if action = SQUID_HEATER_SWITCH then
    .ok ((action <<< 3) ||| 2)
  else if action = SWITCH_FEEDBACK ∧ (parameter.val = 0 ∨ parameter.val = 1) then
    .ok ((action <<< 3) ||| parameter.val.toNat)
  else .error .valueError

example : _command DAC_OUTPUT (.dac .OFFSET) = .ok 0x0B := by decide
example : _command SET_DETECTOR_HEATER_CURRENT = .error .valueError := by decide
example : _command SWITCH_AC_FLUX (.int 7) = .ok 0x29 := by decide

/-- One addressable electronics channel: its wire address and the
capability bitmask reported at discovery time. -/
structure Channel where
  channel : Nat
  capabilities_code : Nat
deriving DecidableEq, Repr

/-- `_validate_parameters`: the command byte must be in `[0, 0xff]`,
exactly two data bytes are required, each in `[0, 0xff]`. -/
def _validate_parameters (command : Nat) (data : List Nat) : Except Err Unit :=
  if ¬ command ≤ 0xff then .error .valueError
  else if data.length ≠ 2 then .error .valueError
  else if ¬ data.all (· ≤ 0xff) then .error .bytesWarning
  else .ok ()

/-- `_communicate`: validate, write the 4-byte request, read the 4-byte
response from the device.  The device is a pure responder; the returned
list is the written request trace. -/
def _communicate (dev : Frame → Frame) (ch : Channel) (command d0 d1 : Nat) :
    Except Err (Frame × List Frame) :=
  match _validate_parameters command [d0, d1] with
  | .error e => .error e
  | .ok _ =>
    let request : Frame := ⟨ch.channel, command, d0, d1⟩
    .ok (dev request, [request])

/-- `_query`: exchange a frame and demand the exact echo
`(channel, 0xff, data0, data1)`; any other response raises
`ConnectionError`; on success return the response's last two bytes. -/
def _query (dev : Frame → Frame) (ch : Channel) (command d0 d1 : Nat) :
    Except Err ((Nat × Nat) × List Frame) :=
  match _validate_parameters command [d0, d1] with
  | .error e => .error e
  | .ok _ =>
    let expected_response : Frame := ⟨ch.channel, 0xff, d0, d1⟩
    match _communicate dev ch command d0 d1 with
    | .error e => .error e
    | .ok (actual_response, tr) =>
      if actual_response ≠ expected_response then .error .connectionError
      else .ok ((actual_response.b2, actual_response.b3), tr)

/-- `_issue`: exchange a frame and report whether the response equals the
acknowledgement echo `(channel, 0xff, data0, data1)`. -/
def _issue (dev : Frame → Frame) (ch : Channel) (command d0 d1 : Nat) :
    Except Err (Bool × List Frame) :=
  match _validate_parameters command [d0, d1] with
  | .error e => .error e
  | .ok _ =>
    let expected_response : Frame := ⟨ch.channel, 0xff, d0, d1⟩
    match _communicate dev ch command d0 d1 with
    | .error e => .error e
    | .ok (actual_response, tr) =>
      .ok (decide (actual_response = expected_response), tr)

/-- `_send_float`: range-check the value, encode it through `_map` and
issue it. -/
def _send_float (dev : Frame → Frame) (ch : Channel) (command : Nat)
    (value minimum maximum : ℚ) : Except Err (Bool × List Frame) :=
  if ¬ (minimum ≤ value ∧ value ≤ maximum) then .error .valueError
  else
    match _map value minimum maximum with
    | .error e => .error e
    | .ok (d0, d1) => _issue dev ch command d0 d1

/-- `change_ac_flux_amplitude_by`: capability-gated signed 16-bit delta;
zero is a successful no-op; the delta is sent two's-complement big-endian. -/
def change_ac_flux_amplitude_by (dev : Frame → Frame) (ch : Channel) (change : ℤ) :
    Except Err (Bool × List Frame) :=
  if ch.capabilities_code &&& 0x0001 = 0 then .ok (false, [])
  else if ¬ (-0x8000 ≤ change ∧ change < 0x8000) then .error .valueError
  else if change = 0 then .ok (true, [])
  else
    match _command CHANGE_INTERNAL_AC_FLUX_AMPLITUDE with
    | .error e => .error e
    | .ok c =>
      let u : Nat := (change % 0x10000).toNat
      _issue dev ch c (u / 0x100) (u % 0x100)

/-- `ac_flux(on)`: capability-gated AC-flux switch. -/
def ac_flux (dev : Frame → Frame) (ch : Channel) (on_ : Bool) :
    Except Err (Bool × List Frame) :=
  if ch.capabilities_code &&& 0x0001 = 0 then .ok (false, [])
  else
    match _command SWITCH_AC_FLUX with
    | .error e => .error e
    | .ok c => _issue dev ch c 0x00 (if on_ then 1 else 0)

/-- `reset_fll(on)`: select RESET_MODE or FLL_MODE. -/
def reset_fll (dev : Frame → Frame) (ch : Channel) (on_ : Bool) :
    Except Err (Bool × List Frame) :=
  if ch.capabilities_code &&& 0x0001 = 0 then .ok (false, [])
  else if on_ then
    match _command SET_FLL_MODE (.fll .RESET_MODE) with
    | .error e => .error e
    | .ok c => _issue dev ch c 0x00 0x00
  else
    match _command SET_FLL_MODE (.fll .FLL_MODE) with
    | .error e => .error e
    | .ok c => _issue dev ch c 0x00 0x00

/-- `test_in(on)`: capability-gated test-input switch. -/
def test_in (dev : Frame → Frame) (ch : Channel) (on_ : Bool) :
    Except Err (Bool × List Frame) :=
  if ch.capabilities_code &&& 0x0001 = 0 then .ok (false, [])
  else
    match _command SWITCH_TEST_IN with
    | .error e => .error e
    | .ok c => _issue dev ch c 0x00 (if on_ then 1 else 0)

/-- `dc_bias(value)`: scaled DAC output on the ±2.5 range. -/
def dc_bias (dev : Frame → Frame) (ch : Channel) (value : ℚ) :
    Except Err (Bool × List Frame) :=
  if ch.capabilities_code &&& 0x0001 = 0 then .ok (false, [])
  else
    match _command DAC_OUTPUT (.dac .DC_BIAS) with
    | .error e => .error e
    | .ok c => _send_float dev ch c value (-(5/2)) (5/2)

/-- `bias(value)`: scaled DAC output on the ±2.5 range. -/
def bias (dev : Frame → Frame) (ch : Channel) (value : ℚ) :
    Except Err (Bool × List Frame) :=
  if ch.capabilities_code &&& 0x0001 = 0 then .ok (false, [])
  else
    match _command DAC_OUTPUT (.dac .BIAS) with
    | .error e => .error e
    | .ok c => _send_float dev ch c value (-(5/2)) (5/2)

/-- `offset(value)`: scaled DAC output on the ±2.5 range. -/
def offset (dev : Frame → Frame) (ch : Channel) (value : ℚ) :
    Except Err (Bool × List Frame) :=
  if ch.capabilities_code &&& 0x0001 = 0 then .ok (false, [])
  else
    match _command DAC_OUTPUT (.dac .OFFSET) with
    | .error e => .error e
    | .ok c => _send_float dev ch c value (-(5/2)) (5/2)

/-- `flux(value)`: scaled DAC output on the ±2.5 range. -/
def flux (dev : Frame → Frame) (ch : Channel) (value : ℚ) :
    Except Err (Bool × List Frame) :=
  if ch.capabilities_code &&& 0x0001 = 0 then .ok (false, [])
  else
    match _command DAC_OUTPUT (.dac .FLUX) with
    | .error e => .error e
    | .ok c => _send_float dev ch c value (-(5/2)) (5/2)

/-- `heat_squid(duration_ms)`: unsigned 16-bit heater pulse duration. -/
def heat_squid (dev : Frame → Frame) (ch : Channel) (duration_ms : ℤ) :
    Except Err (Bool × List Frame) :=
  if ch.capabilities_code &&& 0x0001 = 0 then .ok (false, [])
  else if ¬ (0 ≤ duration_ms ∧ duration_ms ≤ 0xffff) then .error .valueError
  else
    match _command SQUID_HEATER_SWITCH with
    | .error e => .error e
    | .ok c =>
      let u : Nat := duration_ms.toNat
      _issue dev ch c (u / 0x100) (u % 0x100)

/-- `detector_bias(current_ua)`: extended-capability scaled output on the
`[0, 250]` µA range. -/
def detector_bias (dev : Frame → Frame) (ch : Channel) (current_ua : ℚ) :
    Except Err (Bool × List Frame) :=
  if ch.capabilities_code &&& 0x0003 = 0 then .ok (false, [])
  else
    match _command DAC_OUTPUT (.dac .DC_FLUX) with
    | .error e => .error e
    | .ok c => _send_float dev ch c current_ua 0 250

/-- `heat_detector(current_ua)`: extended-capability scaled output on the
`[0, 1000]` µA range (note: `_command` rejects
`SET_DETECTOR_HEATER_CURRENT`, so the capable path raises). -/
def heat_detector (dev : Frame → Frame) (ch : Channel) (current_ua : ℚ) :
    Except Err (Bool × List Frame) :=
  if ch.capabilities_code &&& 0x0003 = 0 then .ok (false, [])
  else
    match _command SET_DETECTOR_HEATER_CURRENT with
    | .error e => .error e
    | .ok c => _send_float dev ch c current_ua 0 1000

/-- `fast_reset_fll()`: extended-capability FAST_RESET_MODE command. -/
def fast_reset_fll (dev : Frame → Frame) (ch : Channel) :
    Except Err (Bool × List Frame) :=
  if ch.capabilities_code &&& 0x0003 = 0 then .ok (false, [])
  else
    match _command SET_FLL_MODE (.fll .FAST_RESET_MODE) with
    | .error e => .error e
    | .ok c => _issue dev ch c 0x00 0x00

/-- Sequence a list of already-described sub-steps left to right:
an exception aborts the sequence, otherwise the results are AND-ed and
the written frames concatenated (Python `all((step1, step2, ...))` over
an eagerly built tuple). -/
def stepAll : List (Except Err (Bool × List Frame)) → Except Err (Bool × List Frame)
  | [] => .ok (true, [])
  | .error e :: _ => .error e
  | .ok (b, t) :: rest =>
    match stepAll rest with
    | .error e => .error e
    | .ok (b2, t2) => .ok (b && b2, t ++ t2)

/-- `auto_tune_squid(start_bias, end_bias)`: the compound autotune
transaction (offset→0, flux→0, FLL mode, AC-flux off, test-in off, two
nonvolatile-memory address/value write pairs, start-autotune). -/
def auto_tune_squid (dev : Frame → Frame) (ch : Channel) (start_bias end_bias : ℚ) :
    Except Err (Bool × List Frame) :=
  if ch.capabilities_code &&& 0x0001 = 0 then .ok (false, [])
  else
    stepAll [
      offset dev ch 0,
      flux dev ch 0,
      reset_fll dev ch false,
      ac_flux dev ch false,
      test_in dev ch false,
      (match _command WRITE_NONVOLATILE_MEMORY with
       | .error e => .error e
       | .ok c => _issue dev ch c 0x00 0x00),
      (match _command WRITE_NONVOLATILE_MEMORY with
       | .error e => .error e
       | .ok c => _send_float dev ch c start_bias (-(5/2)) (5/2)),
      (match _command WRITE_NONVOLATILE_MEMORY with
       | .error e => .error e
       | .ok c => _issue dev ch c 0x00 0x02),
      (match _command WRITE_NONVOLATILE_MEMORY with
       | .error e => .error e
       | .ok c => _send_float dev ch c end_bias (-(5/2)) (5/2)),
      (match _command START_AUTOTUNE with
       | .error e => .error e
       | .ok c => _issue dev ch c 0x00 0x00)]

/-- Concatenate the frame traces of the statements of a finalizer or
constructor body: an exception stops the remaining statements (`__del__`
swallows it; `__init__` of the discovery loop cannot raise on its
concrete arguments). -/
def delTrace : List (Except Err (Bool × List Frame)) → List Frame
  | [] => []
  | .ok (_, t) :: rest => t ++ delTrace rest
  | .error _ :: _ => []

/-- The `SupraConSQUIDChannel.__init__` safe-default body: the frames it
writes through the parent device. -/
def channel_init (dev : Frame → Frame) (ch : Channel) : List Frame :=
  delTrace [
    detector_bias dev ch 0,
    dc_bias dev ch 0,
    offset dev ch 0,
    flux dev ch 0,
    change_ac_flux_amplitude_by dev ch (-12),
    ac_flux dev ch false,
    test_in dev ch false,
    bias dev ch 0]

/-- The `SupraConSQUIDChannel.__del__` safe-default teardown body: the
frames it writes through the parent device. -/
def channel_del (dev : Frame → Frame) (ch : Channel) : List Frame :=
  delTrace [
    detector_bias dev ch 0,
    dc_bias dev ch 0,
    bias dev ch 0,
    offset dev ch 0,
    flux dev ch 0,
    reset_fll dev ch true,
    ac_flux dev ch false,
    test_in dev ch false]

/-- The `SupraConSQUID` device: serial-port open flag and the insertion-
ordered map from channel address to discovered channel, modelled as an
association list. -/
structure Device where
  is_open : Bool
  channels : List (Nat × Channel)
deriving DecidableEq, Repr

/-- `SupraConSQUID.__getitem__(item)`: bound-check the index against the
number of channels, then look the index up as a dictionary key. -/
def getitem (d : Device) (item : ℤ) : Except Err Channel :=
  if ¬ (0 ≤ item ∧ item < d.channels.length) then .error .indexError
  else
    match d.channels.lookup item.toNat with
    | some ch => .ok ch
    | none => .error .keyError

/-- `SupraConSQUID.channels`: the tuple of discovered channel addresses. -/
def channelKeys (d : Device) : List Nat :=
  d.channels.map Prod.fst

/-- The capability-query frame sent to a candidate address during
discovery (also the scanner's probe frame at address 0). -/
def probeFrame (channel : Nat) : Frame :=
  ⟨channel, 0x40, 0x00, 0xf0⟩

/-- The discovery loop of `open()` from address `start` for `count`
addresses: probe each address; second response byte `0xff` means the
channel exists with the capability mask in the last two bytes (the fresh
channel immediately runs its `__init__` safe-default body); an exact
echo of the request means no channel; anything else raises
`ConnectionError`. -/
def discoverFrom (dev : Frame → Frame) : Nat → Nat → Except Err (List (Nat × Channel) × List Frame)
  | _, 0 => .ok ([], [])
  | channel, count + 1 =>
    let request : Frame := probeFrame channel
    let response : Frame := dev request
    if response.b1 = 0xff then
      let c : Channel := ⟨channel, response.b2 * 0x100 + response.b3⟩
      let initTrace : List Frame := channel_init dev c
      match discoverFrom dev (channel + 1) count with
      | .error e => .error e
      | .ok (chs, tr) => .ok ((channel, c) :: chs, request :: initTrace ++ tr)
    else if response = request then
      match discoverFrom dev (channel + 1) count with
      | .error e => .error e
      | .ok (chs, tr) => .ok (chs, request :: tr)
    else .error .connectionError

/-- The fixed pre-discovery broadcast frames of `open()`: three global
"drive to minimum" commands, each followed by the literal zero frame. -/
def openPreamble : List Frame :=
  [⟨0xff, 0x09, 0x00, 0x00⟩, ⟨0xff, 0x00, 0x00, 0x00⟩,
   ⟨0xff, 0x0a, 0x00, 0x00⟩, ⟨0xff, 0x00, 0x00, 0x00⟩,
   ⟨0xff, 0x0b, 0x00, 0x00⟩, ⟨0xff, 0x00, 0x00, 0x00⟩]

/-- `SupraConSQUID.open()`: no-op when already open; otherwise open the
port, send the zeroing preamble, clear the channel map and run the
discovery scan over addresses 1–32. -/
def device_open (dev : Frame → Frame) (d : Device) : Except Err (Device × List Frame) :=
  if d.is_open then .ok (d, [])
  else
    match discoverFrom dev 0x01 0x20 with
    | .error e => .error e
    | .ok (chs, tr) => .ok (⟨true, chs⟩, openPreamble ++ tr)

/-- `SupraConSQUID.close()`: when open, clearing the channel map triggers
each channel's `__del__` teardown in insertion order, then the global
"DC bias to minimum" frame and the literal zero frame are sent; finally
the port is closed.  When already closed, no exchange happens. -/
def device_close (dev : Frame → Frame) (d : Device) : Device × List Frame :=
  if d.is_open then
    (⟨false, []⟩,
     (d.channels.map fun p => channel_del dev p.2).flatten ++
       [⟨0xff, 0x08, 0x00, 0x00⟩, ⟨0xff, 0x00, 0x00, 0x00⟩])
  else (⟨false, d.channels⟩, [])

/-- What reading 4 bytes during a scanner probe can do: return a frame,
or raise one of the exceptions the probe loop distinguishes. -/
inductive ReadResult where
  | bytes (f : Frame)
  | portNotOpen
  | timeout
  | ioError
deriving DecidableEq, Repr

/-- The scanner's fixed baud-rate candidate list. -/
def baudRates : List Nat := [57600, 9600, 38400, 19200]

/-- Scanner events: opening, probing and closing one candidate port. -/
inductive ScanEv where
  | opened (port baud : Nat)
  | wrote (port baud : Nat)
  | closed (port baud : Nat)
deriving DecidableEq, Repr

/-- One scanner probe at a fixed port and baud rate, as in the body of
`list_devices`: open, write the probe frame, read 4 bytes inside
`try/except (PortNotOpenError, TimeoutError)/else/finally`.  Returns
whether the candidate matched, the events, and the exception if the read
raised one that is not caught. -/
def probeOnce (env : Nat → Nat → ReadResult) (port baud : Nat) :
    Bool × List ScanEv × Option Err :=
  let evs : List ScanEv := [.opened port baud, .wrote port baud]
  match env port baud with
  | .bytes f => (decide (f = probeFrame 0), evs ++ [.closed port baud], none)
  | .portNotOpen => (false, evs ++ [.closed port baud], none)
  | .timeout => (false, evs ++ [.closed port baud], none)
  | .ioError => (false, evs ++ [.closed port baud], some .serialException)

/-- The inner loop of `list_devices` over the fixed baud-rate list for
one port: accumulate matching `(port, baud)` pairs; an uncaught read
exception propagates (after the `finally` close). -/
def scanBauds (env : Nat → Nat → ReadResult) (port : Nat) :
    List Nat → Except Err (List (Nat × Nat) × List ScanEv)
  | [] => .ok ([], [])
  | baud :: rest =>
    match probeOnce env port baud with
    | (_, _, some e) => .error e
    | (matched, evs, none) =>
      match scanBauds env port rest with
      | .error e => .error e
      | .ok (good, evs2) =>
        .ok ((if matched then [(port, baud)] else []) ++ good, evs ++ evs2)

/-- `SupraConSQUID.list_devices`: the outer loop over candidate ports
(already filtered by vendor/product id). -/
def list_devices (env : Nat → Nat → ReadResult) :
    List Nat → Except Err (List (Nat × Nat) × List ScanEv)
  | [] => .ok ([], [])
  | port :: rest =>
    match scanBauds env port baudRates with
    | .error e => .error e
    | .ok (good, evs) =>
      match list_devices env rest with
      | .error e => .error e
      | .ok (good2, evs2) => .ok (good ++ good2, evs ++ evs2)

/-! ## Simulated responders -/

/-- A fully cooperative simulated device: acknowledges every request by
echoing address and data with the opcode byte replaced by `0xff`. -/
def ackResponder : Frame → Frame :=
  fun req => ⟨req.b0, 0xff, req.b2, req.b3⟩

/-- A passive bus: every request is echoed verbatim. -/
def echoResponder : Frame → Frame :=
  fun req => req

/-- A responder that reports capability mask `m` at address `a` and
echoes everything else (capability probes at other addresses read back
unchanged, meaning "no channel there"). -/
def simResponder (a m : Nat) : Frame → Frame :=
  fun req => if req = probeFrame a then ⟨a, 0xff, m / 0x100, m % 0x100⟩ else req

/-- A corrupted bus: every response is the constant frame `(0,0,0,1)`,
which is neither a capability answer nor an echo. -/
def garbageResponder : Frame → Frame :=
  fun _ => ⟨0, 0, 0, 1⟩

/-- A device that answers every query with the fixed payload
`(0x12, 0x34)` in the data bytes of an otherwise well-formed echo
(address preserved, opcode byte `0xff`) — the shape of a nonvolatile
memory read-back. -/
def readbackResponder : Frame → Frame :=
  fun req => ⟨req.b0, 0xff, 0x12, 0x34⟩

/-! ## Exchange-primitive lemmas -/

theorem validate_ok {command d0 d1 : Nat} (hc : command ≤ 0xff)
    (h0 : d0 ≤ 0xff) (h1 : d1 ≤ 0xff) :
    _validate_parameters command [d0, d1] = .ok () := by
  simp [_validate_parameters, hc, h0, h1]

theorem issue_eval (dev : Frame → Frame) (ch : Channel) (command d0 d1 : Nat)
    (hc : command ≤ 0xff) (h0 : d0 ≤ 0xff) (h1 : d1 ≤ 0xff) :
    _issue dev ch command d0 d1 =
      .ok (decide (dev ⟨ch.channel, command, d0, d1⟩ = ⟨ch.channel, 0xff, d0, d1⟩),
        [⟨ch.channel, command, d0, d1⟩]) := by
  simp [_issue, _communicate, validate_ok hc h0 h1]

theorem query_eval (dev : Frame → Frame) (ch : Channel) {command d0 d1 : Nat} {u : Unit}
    (hv : _validate_parameters command [d0, d1] = .ok u) :
    _query dev ch command d0 d1 =
      if dev ⟨ch.channel, command, d0, d1⟩ = ⟨ch.channel, 0xff, d0, d1⟩ then
        .ok ((d0, d1), [⟨ch.channel, command, d0, d1⟩])
      else .error .connectionError := by
  simp only [_query, _communicate, hv]
  by_cases hr : dev ⟨ch.channel, command, d0, d1⟩ = ⟨ch.channel, 0xff, d0, d1⟩
  · rw [if_neg (not_not_intro hr), if_pos hr, hr]
  · rw [if_pos hr, if_neg hr]

/-- C2 — `_issue` validates, performs exactly one 4-byte write (the
request) and one 4-byte read, never raises for byte-valued inputs, and
returns `true` precisely when the response is the acknowledgement echo
`(channel, 0xff, data0, data1)`. -/
theorem issue_echo_ack (dev : Frame → Frame) (ch : Channel) (command d0 d1 : Nat)
    (hc : command ≤ 0xff) (h0 : d0 ≤ 0xff) (h1 : d1 ≤ 0xff) :
    ∃ b : Bool, _issue dev ch command d0 d1 =
        .ok (b, [⟨ch.channel, command, d0, d1⟩]) ∧
      (b = true ↔ dev ⟨ch.channel, command, d0, d1⟩ = ⟨ch.channel, 0xff, d0, d1⟩) := by
  refine ⟨_, issue_eval dev ch command d0 d1 hc h0 h1, ?_⟩
  simp

theorem issue_echo_ack_witness :
    (0x08 ≤ 0xff ∧ 0x00 ≤ 0xff) ∧
      ∃ b : Bool, _issue ackResponder ⟨1, 1⟩ 0x08 0x00 0x00 = .ok (b, [⟨1, 0x08, 0x00, 0x00⟩]) ∧
        (b = true ↔ ackResponder ⟨1, 0x08, 0x00, 0x00⟩ = ⟨1, 0xff, 0x00, 0x00⟩) :=
  ⟨by decide, issue_echo_ack ackResponder ⟨1, 1⟩ 0x08 0x00 0x00 (by decide) (by decide) (by decide)⟩

/-- C3 — contrary to the claim, `_query` raises `ConnectionError`
whenever *any* response byte differs from the request echo, including
the two data bytes: a device returning a genuine read-back payload
`(0x12, 0x34)` for the firmware query is rejected, and whenever `_query`
does return, its payload can only ever equal the request's own data
bytes. -/
theorem query_rejects_readback :
    _query readbackResponder ⟨1, 1⟩ 0x40 0x00 0xf2 = .error .connectionError ∧
      ∀ (dev : Frame → Frame) (ch : Channel) (command d0 d1 : Nat) (p : Nat × Nat)
        (t : List Frame), _query dev ch command d0 d1 = .ok (p, t) → p = (d0, d1) := by
  constructor
  · decide
  · intro dev ch command d0 d1 p t h
    rcases hv : _validate_parameters command [d0, d1] with e | u
    · simp only [_query, hv] at h
      cases h
    · rw [query_eval dev ch hv] at h
      split at h
      · simp only [Except.ok.injEq, Prod.mk.injEq] at h
        exact h.1.symm
      · cases h

theorem query_rejects_readback_witness :
    ((0x12, 0x34) ≠ ((0x00 : Nat), (0xf2 : Nat))) ∧
      _query readbackResponder ⟨1, 1⟩ 0x40 0x00 0xf2 = .error .connectionError :=
  ⟨by decide, query_rejects_readback.1⟩

/-- C5 — opcode construction: `(action << 3) | subparam` for legal
combinations; for `DAC_OUTPUT` exactly the five `_DACOutput` members are
legal and any other sub-parameter raises; for `SWITCH_FEEDBACK` exactly
the values 0 and 1 are legal; `SWITCH_AC_FLUX` always encodes
sub-parameter 1 and `SQUID_HEATER_SWITCH` always encodes 2, whatever the
caller supplies. -/
theorem command_opcode_legality :
    (∀ d : DACOutput, _command DAC_OUTPUT (.dac d) = .ok ((DAC_OUTPUT <<< 3) ||| d.val)) ∧
    (∀ p : Param, p.isDAC = false → _command DAC_OUTPUT p = .error .valueError) ∧
    (∀ p : Param, (p.val = 0 ∨ p.val = 1) →
      _command SWITCH_FEEDBACK p = .ok ((SWITCH_FEEDBACK <<< 3) ||| p.val.toNat)) ∧
    (∀ p : Param, p.val ≠ 0 → p.val ≠ 1 → _command SWITCH_FEEDBACK p = .error .valueError) ∧
    (∀ p : Param, _command SWITCH_AC_FLUX p = .ok ((SWITCH_AC_FLUX <<< 3) ||| 1)) ∧
    (∀ p : Param, _command SQUID_HEATER_SWITCH p = .ok ((SQUID_HEATER_SWITCH <<< 3) ||| 2)) := by
  refine ⟨fun d => by cases d <;> decide, fun p hp => ?_, fun p hp => ?_, fun p h0 h1 => ?_,
    fun p => ?_, fun p => ?_⟩
  · simp [_command, hp, DAC_OUTPUT, ADC_INPUT_1, ADC_INPUT_95, SET_FLL_MODE,
      SWITCH_AC_FLUX, SQUID_HEATER_SWITCH, START_AUTOTUNE, READ_NONVOLATILE_MEMORY,
      WRITE_NONVOLATILE_MEMORY, SWITCH_TEST_IN, SWITCH_FEEDBACK,
      CHANGE_INTERNAL_AC_FLUX_AMPLITUDE]
  · simp [_command, hp, DAC_OUTPUT, ADC_INPUT_1, ADC_INPUT_95, SET_FLL_MODE,
      SWITCH_AC_FLUX, SQUID_HEATER_SWITCH, START_AUTOTUNE, READ_NONVOLATILE_MEMORY,
      WRITE_NONVOLATILE_MEMORY, SWITCH_TEST_IN, SWITCH_FEEDBACK,
      CHANGE_INTERNAL_AC_FLUX_AMPLITUDE]
  · simp [_command, h0, h1, DAC_OUTPUT, ADC_INPUT_1, ADC_INPUT_95, SET_FLL_MODE,
      SWITCH_AC_FLUX, SQUID_HEATER_SWITCH, START_AUTOTUNE, READ_NONVOLATILE_MEMORY,
      WRITE_NONVOLATILE_MEMORY, SWITCH_TEST_IN, SWITCH_FEEDBACK,
      CHANGE_INTERNAL_AC_FLUX_AMPLITUDE]
  · simp [_command, DAC_OUTPUT, ADC_INPUT_1, ADC_INPUT_95, SET_FLL_MODE,
      SWITCH_AC_FLUX, SQUID_HEATER_SWITCH, START_AUTOTUNE, READ_NONVOLATILE_MEMORY,
      WRITE_NONVOLATILE_MEMORY, SWITCH_TEST_IN, SWITCH_FEEDBACK,
      CHANGE_INTERNAL_AC_FLUX_AMPLITUDE]
  · simp [_command, DAC_OUTPUT, ADC_INPUT_1, ADC_INPUT_95, SET_FLL_MODE,
      SWITCH_AC_FLUX, SQUID_HEATER_SWITCH, START_AUTOTUNE, READ_NONVOLATILE_MEMORY,
      WRITE_NONVOLATILE_MEMORY, SWITCH_TEST_IN, SWITCH_FEEDBACK,
      CHANGE_INTERNAL_AC_FLUX_AMPLITUDE]

theorem command_opcode_legality_witness :
    _command DAC_OUTPUT (.dac .OFFSET) = .ok 0x0B ∧
    _command DAC_OUTPUT (.int 3) = .error .valueError ∧
    _command SWITCH_FEEDBACK (.int 1) = .ok 0x59 ∧
    _command SWITCH_FEEDBACK (.int 2) = .error .valueError ∧
    _command SWITCH_AC_FLUX (.int 0) = .ok 0x29 ∧
    _command SQUID_HEATER_SWITCH (.int 0) = .ok 0x32 :=
  ⟨command_opcode_legality.1 .OFFSET,
   command_opcode_legality.2.1 (.int 3) rfl,
   command_opcode_legality.2.2.1 (.int 1) (.inr rfl),
   command_opcode_legality.2.2.2.1 (.int 2) (by decide) (by decide),
   command_opcode_legality.2.2.2.2.1 (.int 0),
   command_opcode_legality.2.2.2.2.2 (.int 0)⟩

/-- C6 (counterexample) — a channel whose capability mask is `0x02`
does *not* have bits 0 and 1 together, yet `fast_reset_fll` performs an
exchange and reports success: the real gate is `mask & 3 == 0`, not
"bits {0,1} together". -/
theorem extended_ops_single_bit_counterexample :
    ((0x02 : Nat) &&& 0x0003 ≠ 0x0003) ∧
    fast_reset_fll ackResponder ⟨1, 0x02⟩ = .ok (true, [⟨1, 0x22, 0x00, 0x00⟩]) ∧
    fast_reset_fll ackResponder ⟨1, 0x02⟩ ≠ .ok (false, []) := by
  decide

/-- C6 (amended) — for every channel whose capability mask has neither
bit 0 nor bit 1 (`mask & 3 == 0`), each extended operation (detector
bias, detector heater current, fast FLL reset) returns `false` with no
I/O and without raising. -/
theorem extended_ops_no_bits_noop (dev : Frame → Frame) (ch : Channel) (v w : ℚ)
    (h : ch.capabilities_code &&& 0x0003 = 0) :
    detector_bias dev ch v = .ok (false, []) ∧
    heat_detector dev ch w = .ok (false, []) ∧
    fast_reset_fll dev ch = .ok (false, []) := by
  refine ⟨?_, ?_, ?_⟩
  · simp [detector_bias, h]
  · simp [heat_detector, h]
  · simp [fast_reset_fll, h]

theorem extended_ops_no_bits_noop_witness :
    ((0x04 : Nat) &&& 0x0003 = 0) ∧
      (detector_bias ackResponder ⟨1, 0x04⟩ 0 = .ok (false, []) ∧
       heat_detector ackResponder ⟨1, 0x04⟩ 0 = .ok (false, []) ∧
       fast_reset_fll ackResponder ⟨1, 0x04⟩ = .ok (false, [])) :=
  ⟨by decide, extended_ops_no_bits_noop ackResponder ⟨1, 0x04⟩ 0 0 (by decide)⟩

/-! ## Association-list lookup lemmas for `__getitem__` -/

theorem lookup_none_of_not_mem (k : Nat) :
    ∀ l : List (Nat × Channel), k ∉ l.map Prod.fst → l.lookup k = none := by
  intro l
  induction l with
  | nil => intro _; rfl
  | cons p rest ih =>
    obtain ⟨a, c'⟩ := p
    intro h
    simp only [List.map_cons, List.mem_cons, not_or] at h
    have hb : (k == a) = false := by simpa using h.1
    simp only [List.lookup, hb]
    exact ih h.2

theorem mem_of_lookup_some (k : Nat) (c : Channel) :
    ∀ l : List (Nat × Channel), l.lookup k = some c → (k, c) ∈ l := by
  intro l
  induction l with
  | nil => intro h; cases h
  | cons p rest ih =>
    obtain ⟨a, c'⟩ := p
    intro h
    by_cases hk : k = a
    · subst hk
      simp only [List.lookup, beq_self_eq_true] at h
      cases h
      exact List.mem_cons_self _ _
    · have hb : (k == a) = false := by simpa using hk
      simp only [List.lookup, hb] at h
      exact List.mem_cons_of_mem _ (ih h)

/-! ## Per-operation evaluation lemmas -/

/-- Whether the device acknowledges a given request frame. -/
def ackBit (dev : Frame → Frame) (f : Frame) : Bool :=
  decide (dev f = ⟨f.b0, 0xff, f.b2, f.b3⟩)

theorem send_float_zero_sym (dev : Frame → Frame) (ch : Channel) (c : Nat) (hc : c ≤ 0xff) :
    _send_float dev ch c 0 (-(5/2)) (5/2) =
      .ok (ackBit dev ⟨ch.channel, c, 0x80, 0x00⟩, [⟨ch.channel, c, 0x80, 0x00⟩]) := by
  have hr : ((-(5/2) : ℚ) ≤ 0 ∧ (0:ℚ) ≤ 5/2) := by norm_num
  simp only [_send_float, if_neg (not_not_intro hr), map_zero_sym,
    issue_eval dev ch c 0x80 0x00 hc (by decide) (by decide), ackBit]

theorem bit0_of_bit01 {cap : Nat} (h1 : cap &&& 0x0001 ≠ 0) : cap &&& 0x0003 ≠ 0 := by
  intro h0
  apply h1
  calc cap &&& 1 = cap &&& (3 &&& 1) := by norm_num
    _ = (cap &&& 3) &&& 1 := (Nat.and_assoc cap 3 1).symm
    _ = 0 &&& 1 := by rw [h0]
    _ = 0 := Nat.zero_and 1

theorem detector_bias_zero_eval (dev : Frame → Frame) (ch : Channel)
    (h3 : ch.capabilities_code &&& 0x0003 ≠ 0) :
    detector_bias dev ch 0 =
      .ok (ackBit dev ⟨ch.channel, 0x09, 0x00, 0x00⟩, [⟨ch.channel, 0x09, 0x00, 0x00⟩]) := by
  have hr : ((0:ℚ) ≤ 0 ∧ (0:ℚ) ≤ 250) := by norm_num
  have hcmd : _command DAC_OUTPUT (.dac .DC_FLUX) = .ok 0x09 := by decide
  simp only [detector_bias, if_neg h3, hcmd, _send_float, if_neg (not_not_intro hr),
    map_zero_250, issue_eval dev ch 0x09 0x00 0x00 (by decide) (by decide) (by decide), ackBit]

theorem dc_bias_zero_eval (dev : Frame → Frame) (ch : Channel)
    (h1 : ch.capabilities_code &&& 0x0001 ≠ 0) :
    dc_bias dev ch 0 =
      .ok (ackBit dev ⟨ch.channel, 0x08, 0x80, 0x00⟩, [⟨ch.channel, 0x08, 0x80, 0x00⟩]) := by
  have hcmd : _command DAC_OUTPUT (.dac .DC_BIAS) = .ok 0x08 := by decide
  simp only [dc_bias, if_neg h1, hcmd, send_float_zero_sym dev ch 0x08 (by decide)]

theorem bias_zero_eval (dev : Frame → Frame) (ch : Channel)
    (h1 : ch.capabilities_code &&& 0x0001 ≠ 0) :
    bias dev ch 0 =
      .ok (ackBit dev ⟨ch.channel, 0x0A, 0x80, 0x00⟩, [⟨ch.channel, 0x0A, 0x80, 0x00⟩]) := by
  have hcmd : _command DAC_OUTPUT (.dac .BIAS) = .ok 0x0A := by decide
  simp only [bias, if_neg h1, hcmd, send_float_zero_sym dev ch 0x0A (by decide)]

theorem offset_zero_eval (dev : Frame → Frame) (ch : Channel)
    (h1 : ch.capabilities_code &&& 0x0001 ≠ 0) :
    offset dev ch 0 =
      .ok (ackBit dev ⟨ch.channel, 0x0B, 0x80, 0x00⟩, [⟨ch.channel, 0x0B, 0x80, 0x00⟩]) := by
  have hcmd : _command DAC_OUTPUT (.dac .OFFSET) = .ok 0x0B := by decide
  simp only [offset, if_neg h1, hcmd, send_float_zero_sym dev ch 0x0B (by decide)]

theorem flux_zero_eval (dev : Frame → Frame) (ch : Channel)
    (h1 : ch.capabilities_code &&& 0x0001 ≠ 0) :
    flux dev ch 0 =
      .ok (ackBit dev ⟨ch.channel, 0x0C, 0x80, 0x00⟩, [⟨ch.channel, 0x0C, 0x80, 0x00⟩]) := by
  have hcmd : _command DAC_OUTPUT (.dac .FLUX) = .ok 0x0C := by decide
  simp only [flux, if_neg h1, hcmd, send_float_zero_sym dev ch 0x0C (by decide)]

theorem reset_fll_eval (dev : Frame → Frame) (ch : Channel) (b : Bool)
    (h1 : ch.capabilities_code &&& 0x0001 ≠ 0) :
    reset_fll dev ch b =
      .ok (ackBit dev ⟨ch.channel, if b then 0x21 else 0x20, 0x00, 0x00⟩,
        [⟨ch.channel, if b then 0x21 else 0x20, 0x00, 0x00⟩]) := by
  have hcmd1 : _command SET_FLL_MODE (.fll .RESET_MODE) = .ok 0x21 := by decide
  have hcmd0 : _command SET_FLL_MODE (.fll .FLL_MODE) = .ok 0x20 := by decide
  cases b
  · simp only [reset_fll, if_neg h1, Bool.false_eq_true, if_false, hcmd0,
      issue_eval dev ch 0x20 0x00 0x00 (by decide) (by decide) (by decide), ackBit]
  · simp only [reset_fll, if_neg h1, if_true, hcmd1,
      issue_eval dev ch 0x21 0x00 0x00 (by decide) (by decide) (by decide), ackBit]

theorem ac_flux_off_eval (dev : Frame → Frame) (ch : Channel)
    (h1 : ch.capabilities_code &&& 0x0001 ≠ 0) :
    ac_flux dev ch false =
      .ok (ackBit dev ⟨ch.channel, 0x29, 0x00, 0x00⟩, [⟨ch.channel, 0x29, 0x00, 0x00⟩]) := by
  have hcmd : _command SWITCH_AC_FLUX = .ok 0x29 := by decide
  simp only [ac_flux, if_neg h1, hcmd, Bool.false_eq_true, if_false,
    issue_eval dev ch 0x29 0x00 0x00 (by decide) (by decide) (by decide), ackBit]

theorem test_in_off_eval (dev : Frame → Frame) (ch : Channel)
    (h1 : ch.capabilities_code &&& 0x0001 ≠ 0) :
    test_in dev ch false =
      .ok (ackBit dev ⟨ch.channel, 0x50, 0x00, 0x00⟩, [⟨ch.channel, 0x50, 0x00, 0x00⟩]) := by
  have hcmd : _command SWITCH_TEST_IN = .ok 0x50 := by decide
  simp only [test_in, if_neg h1, hcmd, Bool.false_eq_true, if_false,
    issue_eval dev ch 0x50 0x00 0x00 (by decide) (by decide) (by decide), ackBit]

theorem change_amp_minus12_eval (dev : Frame → Frame) (ch : Channel)
    (h1 : ch.capabilities_code &&& 0x0001 ≠ 0) :
    change_ac_flux_amplitude_by dev ch (-12) =
      .ok (ackBit dev ⟨ch.channel, 0x60, 0xff, 0xf4⟩, [⟨ch.channel, 0x60, 0xff, 0xf4⟩]) := by
  have hcmd : _command CHANGE_INTERNAL_AC_FLUX_AMPLITUDE = .ok 0x60 := by decide
  have hr : (-(0x8000:ℤ) ≤ -12 ∧ (-12:ℤ) < 0x8000) := by decide
  have hu1 : (((-12:ℤ) % 0x10000).toNat / 0x100) = 0xff := by decide
  have hu2 : (((-12:ℤ) % 0x10000).toNat % 0x100) = 0xf4 := by decide
  simp only [change_ac_flux_amplitude_by, if_neg h1, if_neg (not_not_intro hr),
    if_neg (by decide : ¬ ((-12:ℤ) = 0)), hcmd, hu1, hu2,
    issue_eval dev ch 0x60 0xff 0xf4 (by decide) (by decide) (by decide), ackBit]

/-- The `__del__` teardown trace of a channel with the standard
capability bit: the eight safe-default frames, independent of the
responder. -/
theorem channel_del_eval (dev : Frame → Frame) (ch : Channel)
    (h1 : ch.capabilities_code &&& 0x0001 ≠ 0) :
    channel_del dev ch =
      [⟨ch.channel, 0x09, 0x00, 0x00⟩, ⟨ch.channel, 0x08, 0x80, 0x00⟩,
       ⟨ch.channel, 0x0A, 0x80, 0x00⟩, ⟨ch.channel, 0x0B, 0x80, 0x00⟩,
       ⟨ch.channel, 0x0C, 0x80, 0x00⟩, ⟨ch.channel, 0x21, 0x00, 0x00⟩,
       ⟨ch.channel, 0x29, 0x00, 0x00⟩, ⟨ch.channel, 0x50, 0x00, 0x00⟩] := by
  have h3 := bit0_of_bit01 h1
  simp only [channel_del, detector_bias_zero_eval dev ch h3, dc_bias_zero_eval dev ch h1,
    bias_zero_eval dev ch h1, offset_zero_eval dev ch h1, flux_zero_eval dev ch h1,
    reset_fll_eval dev ch true h1, ac_flux_off_eval dev ch h1, test_in_off_eval dev ch h1,
    delTrace, if_true]
  simp

/-- Bytes produced by a successful `_map` are in byte range. -/
theorem map_bytes_le {v mn mx : ℚ} {d0 d1 : Nat} (h : _map v mn mx = .ok (d0, d1)) :
    d0 ≤ 0xff ∧ d1 ≤ 0xff := by
  simp only [_map] at h
  split at h
  · split at h
    · cases h
    · split at h
      · cases h
      · rename_i hover
        push_neg at hover
        simp only [Except.ok.injEq, Prod.mk.injEq] at h
        obtain ⟨h0, h1⟩ := h
        omega
  · cases h

/-- C8 — teardown ordering: closing an open device first emits each
channel's safe-default teardown frames in insertion order (outputs to
zero, FLL into reset mode via opcode `0x21`, AC-flux and test-input
off), then the global DC-bias-to-minimum frame `(0xff,0x08,0,0)` and the
literal zero frame, and marks the transport closed; for a single
standard-capability channel the full frame sequence is explicit; closing
an already-closed device performs no exchange. -/
theorem close_teardown_order (dev : Frame → Frame) (d : Device) (c : Nat)
    (chs : List (Nat × Channel)) (hopen : d.is_open = true) :
    device_close dev d = (⟨false, []⟩,
      (d.channels.map fun p => channel_del dev p.2).flatten ++
        [⟨0xff, 0x08, 0x00, 0x00⟩, ⟨0xff, 0x00, 0x00, 0x00⟩]) ∧
    device_close dev ⟨true, [(c, ⟨c, 1⟩)]⟩ = (⟨false, []⟩,
      [⟨c, 0x09, 0x00, 0x00⟩, ⟨c, 0x08, 0x80, 0x00⟩, ⟨c, 0x0A, 0x80, 0x00⟩,
       ⟨c, 0x0B, 0x80, 0x00⟩, ⟨c, 0x0C, 0x80, 0x00⟩, ⟨c, 0x21, 0x00, 0x00⟩,
       ⟨c, 0x29, 0x00, 0x00⟩, ⟨c, 0x50, 0x00, 0x00⟩,
       ⟨0xff, 0x08, 0x00, 0x00⟩, ⟨0xff, 0x00, 0x00, 0x00⟩]) ∧
    device_close dev ⟨false, chs⟩ = (⟨false, chs⟩, []) := by
  refine ⟨?_, ?_, ?_⟩
  · simp only [device_close, hopen, if_true]
  · have hdel := channel_del_eval dev ⟨c, 1⟩ (show (1:Nat) &&& 0x0001 ≠ 0 by decide)
    simp [device_close, hdel]
  · simp [device_close]

theorem close_teardown_order_witness :
    (true = true) ∧
      (device_close ackResponder ⟨true, [(5, ⟨5, 1⟩)]⟩ = (⟨false, []⟩,
        [⟨5, 0x09, 0x00, 0x00⟩, ⟨5, 0x08, 0x80, 0x00⟩, ⟨5, 0x0A, 0x80, 0x00⟩,
         ⟨5, 0x0B, 0x80, 0x00⟩, ⟨5, 0x0C, 0x80, 0x00⟩, ⟨5, 0x21, 0x00, 0x00⟩,
         ⟨5, 0x29, 0x00, 0x00⟩, ⟨5, 0x50, 0x00, 0x00⟩,
         ⟨0xff, 0x08, 0x00, 0x00⟩, ⟨0xff, 0x00, 0x00, 0x00⟩]) ∧
       device_close ackResponder ⟨false, []⟩ = (⟨false, []⟩, [])) :=
  ⟨rfl, (close_teardown_order ackResponder ⟨true, [(5, ⟨5, 1⟩)]⟩ 5 [] rfl).2⟩

/-- C7 (counterexample) — autotune on a cooperative device: the third
frame of the sequence is `(channel, 0x20, 0, 0)`, i.e. `SET_FLL_MODE`
with sub-parameter `FLL_MODE` — the code calls `reset_fll(on=False)` —
whereas the claimed step "FLL-reset(on)" would emit `(channel, 0x21, 0,
0)`. -/
theorem auto_tune_reset_on_counterexample :
    (∃ rest : List Frame, auto_tune_squid ackResponder ⟨1, 1⟩ 0 0 =
        .ok (true, ⟨1, 0x0B, 0x80, 0x00⟩ :: ⟨1, 0x0C, 0x80, 0x00⟩ ::
          ⟨1, 0x20, 0x00, 0x00⟩ :: rest)) ∧
    (⟨1, 0x20, 0x00, 0x00⟩ : Frame) ≠ ⟨1, 0x21, 0x00, 0x00⟩ := by
  constructor
  · refine ⟨[⟨1, 0x29, 0x00, 0x00⟩, ⟨1, 0x50, 0x00, 0x00⟩, ⟨1, 0x48, 0x00, 0x00⟩,
      ⟨1, 0x48, 0x80, 0x00⟩, ⟨1, 0x48, 0x00, 0x02⟩, ⟨1, 0x48, 0x80, 0x00⟩,
      ⟨1, 0x38, 0x00, 0x00⟩], ?_⟩
    have h1 : (1 : Nat) &&& 0x0001 ≠ 0 := by decide
    have hcw : _command WRITE_NONVOLATILE_MEMORY = .ok 0x48 := by decide
    have hca : _command START_AUTOTUNE = .ok 0x38 := by decide
    simp only [auto_tune_squid, if_neg h1,
      offset_zero_eval ackResponder ⟨1, 1⟩ h1, flux_zero_eval ackResponder ⟨1, 1⟩ h1,
      reset_fll_eval ackResponder ⟨1, 1⟩ false h1, ac_flux_off_eval ackResponder ⟨1, 1⟩ h1,
      test_in_off_eval ackResponder ⟨1, 1⟩ h1, hcw, hca,
      send_float_zero_sym ackResponder ⟨1, 1⟩ 0x48 (by decide),
      issue_eval ackResponder ⟨1, 1⟩ 0x48 0x00 0x00 (by decide) (by decide) (by decide),
      issue_eval ackResponder ⟨1, 1⟩ 0x48 0x00 0x02 (by decide) (by decide) (by decide),
      issue_eval ackResponder ⟨1, 1⟩ 0x38 0x00 0x00 (by decide) (by decide) (by decide),
      stepAll]
    decide
  · decide

/-- C7 (amended) — on a channel with the standard capability bit,
`auto_tune_squid` never raises for in-range biases; it writes, in
order: offset→0, flux→0, FLL-reset *off* (`0x20`), AC-flux off,
test-input off, the start-bias address write, the encoded start-bias
value, the end-bias address write, the encoded end-bias value, and
start-autotune — all ten frames are sent regardless of individual
acknowledgements (no rollback) — and it returns `true` iff the device
acknowledged every one of the ten frames. -/
theorem auto_tune_sequence (dev : Frame → Frame) (ch : Channel) (sb eb : ℚ)
    (sd0 sd1 ed0 ed1 : Nat)
    (hcap : ch.capabilities_code &&& 0x0001 ≠ 0)
    (hs : _map sb (-(5/2)) (5/2) = .ok (sd0, sd1))
    (he : _map eb (-(5/2)) (5/2) = .ok (ed0, ed1))
    (hsr : -(5/2) ≤ sb ∧ sb ≤ 5/2) (her : -(5/2) ≤ eb ∧ eb ≤ 5/2) :
    ∃ b : Bool, auto_tune_squid dev ch sb eb =
        .ok (b, [⟨ch.channel, 0x0B, 0x80, 0x00⟩, ⟨ch.channel, 0x0C, 0x80, 0x00⟩,
          ⟨ch.channel, 0x20, 0x00, 0x00⟩, ⟨ch.channel, 0x29, 0x00, 0x00⟩,
          ⟨ch.channel, 0x50, 0x00, 0x00⟩, ⟨ch.channel, 0x48, 0x00, 0x00⟩,
          ⟨ch.channel, 0x48, sd0, sd1⟩, ⟨ch.channel, 0x48, 0x00, 0x02⟩,
          ⟨ch.channel, 0x48, ed0, ed1⟩, ⟨ch.channel, 0x38, 0x00, 0x00⟩]) ∧
      (b = true ↔
        (ackBit dev ⟨ch.channel, 0x0B, 0x80, 0x00⟩ = true ∧
         ackBit dev ⟨ch.channel, 0x0C, 0x80, 0x00⟩ = true ∧
         ackBit dev ⟨ch.channel, 0x20, 0x00, 0x00⟩ = true ∧
         ackBit dev ⟨ch.channel, 0x29, 0x00, 0x00⟩ = true ∧
         ackBit dev ⟨ch.channel, 0x50, 0x00, 0x00⟩ = true ∧
         ackBit dev ⟨ch.channel, 0x48, 0x00, 0x00⟩ = true ∧
         ackBit dev ⟨ch.channel, 0x48, sd0, sd1⟩ = true ∧
         ackBit dev ⟨ch.channel, 0x48, 0x00, 0x02⟩ = true ∧
         ackBit dev ⟨ch.channel, 0x48, ed0, ed1⟩ = true ∧
         ackBit dev ⟨ch.channel, 0x38, 0x00, 0x00⟩ = true)) := by
  obtain ⟨hsb0, hsb1⟩ := map_bytes_le hs
  obtain ⟨heb0, heb1⟩ := map_bytes_le he
  have hcw : _command WRITE_NONVOLATILE_MEMORY = .ok 0x48 := by decide
  have hca : _command START_AUTOTUNE = .ok 0x38 := by decide
  have hsf : _send_float dev ch 0x48 sb (-(5/2)) (5/2) =
      .ok (ackBit dev ⟨ch.channel, 0x48, sd0, sd1⟩, [⟨ch.channel, 0x48, sd0, sd1⟩]) := by
    simp only [_send_float, if_neg (not_not_intro hsr), hs,
      issue_eval dev ch 0x48 sd0 sd1 (by decide) hsb0 hsb1, ackBit]
  have hef : _send_float dev ch 0x48 eb (-(5/2)) (5/2) =
      .ok (ackBit dev ⟨ch.channel, 0x48, ed0, ed1⟩, [⟨ch.channel, 0x48, ed0, ed1⟩]) := by
    simp only [_send_float, if_neg (not_not_intro her), he,
      issue_eval dev ch 0x48 ed0 ed1 (by decide) heb0 heb1, ackBit]
  refine ⟨ackBit dev ⟨ch.channel, 0x0B, 0x80, 0x00⟩ &&
      (ackBit dev ⟨ch.channel, 0x0C, 0x80, 0x00⟩ &&
      (ackBit dev ⟨ch.channel, 0x20, 0x00, 0x00⟩ &&
      (ackBit dev ⟨ch.channel, 0x29, 0x00, 0x00⟩ &&
      (ackBit dev ⟨ch.channel, 0x50, 0x00, 0x00⟩ &&
      (ackBit dev ⟨ch.channel, 0x48, 0x00, 0x00⟩ &&
      (ackBit dev ⟨ch.channel, 0x48, sd0, sd1⟩ &&
      (ackBit dev ⟨ch.channel, 0x48, 0x00, 0x02⟩ &&
      (ackBit dev ⟨ch.channel, 0x48, ed0, ed1⟩ &&
      (ackBit dev ⟨ch.channel, 0x38, 0x00, 0x00⟩ && true))))))))), ?_, ?_⟩
  · simp only [auto_tune_squid, if_neg hcap,
      offset_zero_eval dev ch hcap, flux_zero_eval dev ch hcap,
      reset_fll_eval dev ch false hcap, ac_flux_off_eval dev ch hcap,
      test_in_off_eval dev ch hcap, hcw, hca, hsf, hef,
      issue_eval dev ch 0x48 0x00 0x00 (by decide) (by decide) (by decide),
      issue_eval dev ch 0x48 0x00 0x02 (by decide) (by decide) (by decide),
      issue_eval dev ch 0x38 0x00 0x00 (by decide) (by decide) (by decide),
      stepAll, ackBit, List.singleton_append, List.append_nil, Bool.false_eq_true,
      if_true, if_false]
  · simp [Bool.and_eq_true, and_assoc]

/-- C7 witness instance at channel 1, zero biases, on the fully
cooperative responder. -/
theorem auto_tune_sequence_witness :
    ((1 : Nat) &&& 0x0001 ≠ 0 ∧ _map 0 (-(5/2)) (5/2) = .ok (0x80, 0x00)) ∧
      ∃ b : Bool, auto_tune_squid ackResponder ⟨1, 1⟩ 0 0 =
          .ok (b, [⟨1, 0x0B, 0x80, 0x00⟩, ⟨1, 0x0C, 0x80, 0x00⟩,
            ⟨1, 0x20, 0x00, 0x00⟩, ⟨1, 0x29, 0x00, 0x00⟩,
            ⟨1, 0x50, 0x00, 0x00⟩, ⟨1, 0x48, 0x00, 0x00⟩,
            ⟨1, 0x48, 0x80, 0x00⟩, ⟨1, 0x48, 0x00, 0x02⟩,
            ⟨1, 0x48, 0x80, 0x00⟩, ⟨1, 0x38, 0x00, 0x00⟩]) ∧
        (b = true ↔
          (ackBit ackResponder ⟨1, 0x0B, 0x80, 0x00⟩ = true ∧
           ackBit ackResponder ⟨1, 0x0C, 0x80, 0x00⟩ = true ∧
           ackBit ackResponder ⟨1, 0x20, 0x00, 0x00⟩ = true ∧
           ackBit ackResponder ⟨1, 0x29, 0x00, 0x00⟩ = true ∧
           ackBit ackResponder ⟨1, 0x50, 0x00, 0x00⟩ = true ∧
           ackBit ackResponder ⟨1, 0x48, 0x00, 0x00⟩ = true ∧
           ackBit ackResponder ⟨1, 0x48, 0x80, 0x00⟩ = true ∧
           ackBit ackResponder ⟨1, 0x48, 0x00, 0x02⟩ = true ∧
           ackBit ackResponder ⟨1, 0x48, 0x80, 0x00⟩ = true ∧
           ackBit ackResponder ⟨1, 0x38, 0x00, 0x00⟩ = true)) :=
  ⟨⟨by decide, map_zero_sym⟩,
   auto_tune_sequence ackResponder ⟨1, 1⟩ 0 0 0x80 0x00 0x80 0x00 (by decide)
     map_zero_sym map_zero_sym (by norm_num) (by norm_num)⟩

/-! ## Discovery-scan lemmas -/

theorem simResponder_miss {a m s : Nat} (h : s ≠ a) :
    simResponder a m ⟨s, 0x40, 0x00, 0xf0⟩ = ⟨s, 0x40, 0x00, 0xf0⟩ := by
  simp only [simResponder, probeFrame]
  rw [if_neg]
  simp [h]

theorem simResponder_hit (a m : Nat) :
    simResponder a m ⟨a, 0x40, 0x00, 0xf0⟩ = ⟨a, 0xff, m / 0x100, m % 0x100⟩ := by
  simp [simResponder, probeFrame]

/-- Addresses that the responder reports as absent are skipped: the
scan over `[s, s+n)` that never meets `a` discovers nothing. -/
theorem discover_skip (a m : Nat) : ∀ n s : Nat, (a < s ∨ s + n ≤ a) →
    ∃ tr, discoverFrom (simResponder a m) s n = .ok ([], tr) := by
  intro n
  induction n with
  | zero => exact fun s _ => ⟨[], rfl⟩
  | succ k ih =>
    intro s hs
    have hne : s ≠ a := by omega
    obtain ⟨tr, htr⟩ := ih (s + 1) (by omega)
    refine ⟨probeFrame s :: tr, ?_⟩
    simp [discoverFrom, simResponder_miss hne, htr, probeFrame]

/-- The scan over `[s, s+n)` that meets `a` discovers exactly the one
channel at `a` with capability mask `m`. -/
theorem discover_hit (a m : Nat) : ∀ n s : Nat, s ≤ a → a < s + n →
    ∃ tr, discoverFrom (simResponder a m) s n = .ok ([(a, ⟨a, m⟩)], tr) := by
  intro n
  induction n with
  | zero => intro s h1 h2; omega
  | succ k ih =>
    intro s h1 h2
    by_cases hsa : s = a
    · subst hsa
      obtain ⟨tr2, htr2⟩ := discover_skip s m k (s + 1) (by omega)
      refine ⟨probeFrame s :: channel_init (simResponder s m) ⟨s, m⟩ ++ tr2, ?_⟩
      simp [discoverFrom, simResponder_hit s m, htr2, probeFrame, Nat.div_add_mod']
    · obtain ⟨tr, htr⟩ := ih (s + 1) (by omega) (by omega)
      refine ⟨probeFrame s :: tr, ?_⟩
      simp [discoverFrom, simResponder_miss hsa, htr, probeFrame]

/-- Discovered channel addresses are at least the scan start and
strictly ascending. -/
theorem discover_keys (dev : Frame → Frame) : ∀ n s chs tr,
    discoverFrom dev s n = .ok (chs, tr) →
    (∀ k ∈ chs.map Prod.fst, s ≤ k) ∧ List.Chain' (· < ·) (chs.map Prod.fst) := by
  intro n
  induction n with
  | zero =>
    intro s chs tr h
    simp only [discoverFrom, Except.ok.injEq, Prod.mk.injEq] at h
    obtain ⟨hch, -⟩ := h
    subst hch
    simp
  | succ k ih =>
    intro s chs tr h
    simp only [discoverFrom] at h
    split at h
    · rcases hrec : discoverFrom dev (s + 1) k with e | p
      · rw [hrec] at h; cases h
      · obtain ⟨chs2, tr2⟩ := p
        rw [hrec] at h
        simp only [Except.ok.injEq, Prod.mk.injEq] at h
        obtain ⟨hch, -⟩ := h
        subst hch
        obtain ⟨ih1, ih2⟩ := ih (s + 1) chs2 tr2 hrec
        constructor
        · intro key hkey
          simp only [List.map_cons, List.mem_cons] at hkey
          rcases hkey with hkey | hkey
          · omega
          · have := ih1 key hkey
            omega
        · refine List.Chain'.cons' ih2 ?_
          intro y hy
          have hmem := List.mem_of_mem_head? hy
          have := ih1 y hmem
          omega
    · split at h
      · rcases hrec : discoverFrom dev (s + 1) k with e | p
        · rw [hrec] at h; cases h
        · obtain ⟨chs2, tr2⟩ := p
          rw [hrec] at h
          simp only [Except.ok.injEq, Prod.mk.injEq] at h
          obtain ⟨hch, -⟩ := h
          subst hch
          obtain ⟨ih1, ih2⟩ := ih (s + 1) chs2 tr2 hrec
          exact ⟨fun key hkey => by have := ih1 key hkey; omega, ih2⟩
      · cases h

/-- C1 — channel discovery: against a responder reporting capability
mask `m` at address `a ∈ [1, 32]` and absent everywhere else, `open()`
yields exactly the channel map `{a ↦ mask m}` after the zeroing
preamble; on any device the discovered addresses are strictly ascending;
and a responder whose probe answer is neither a capability answer nor an
echo makes `open()` raise `ConnectionError`. -/
theorem open_discovery_scan (a m : Nat) (ha1 : 1 ≤ a) (ha2 : a ≤ 0x20) (_hm : m ≤ 0xffff) :
    (∃ tr, device_open (simResponder a m) ⟨false, []⟩ =
        .ok (⟨true, [(a, ⟨a, m⟩)]⟩, openPreamble ++ tr)) ∧
    (∀ (dev : Frame → Frame) (d' : Device) (tr : List Frame),
      device_open dev ⟨false, []⟩ = .ok (d', tr) →
        List.Chain' (· < ·) (channelKeys d')) ∧
    device_open garbageResponder ⟨false, []⟩ = .error .connectionError := by
  refine ⟨?_, ?_, ?_⟩
  · obtain ⟨tr, htr⟩ := discover_hit a m 0x20 0x01 ha1 (by omega)
    exact ⟨tr, by simp [device_open, htr]⟩
  · intro dev d' tr h
    simp only [device_open, Bool.false_eq_true, if_false] at h
    rcases hrec : discoverFrom dev 0x01 0x20 with e | p
    · rw [hrec] at h; cases h
    · obtain ⟨chs, tr2⟩ := p
      rw [hrec] at h
      simp only [Except.ok.injEq, Prod.mk.injEq] at h
      obtain ⟨hd, -⟩ := h
      subst hd
      exact (discover_keys dev 0x20 0x01 chs tr2 hrec).2
  · decide

theorem open_discovery_scan_witness :
    (1 ≤ 5 ∧ 5 ≤ 0x20 ∧ 3 ≤ 0xffff) ∧
      ∃ tr, device_open (simResponder 5 3) ⟨false, []⟩ =
        .ok (⟨true, [(5, ⟨5, 3⟩)]⟩, openPreamble ++ tr) :=
  ⟨by decide, (open_discovery_scan 5 3 (by decide) (by decide) (by decide)).1⟩

/-! ## Scanner lemmas -/

/-- The inner baud-rate loop of one port, when no read raises an
uncaught exception: every candidate is opened, probed and closed, and
exactly the matching baud rates are recorded. -/
theorem scanBauds_eval (env : Nat → Nat → ReadResult) (port : Nat) :
    ∀ bauds : List Nat, (∀ b ∈ bauds, env port b ≠ .ioError) →
    scanBauds env port bauds = .ok
      (bauds.filterMap fun b =>
        if env port b = .bytes (probeFrame 0) then some (port, b) else none,
       bauds.flatMap fun b => [.opened port b, .wrote port b, .closed port b]) := by
  intro bauds
  induction bauds with
  | nil => intro _; rfl
  | cons b rest ih =>
    intro h
    have hb := h b (List.mem_cons_self b rest)
    have hrest : ∀ x ∈ rest, env port x ≠ .ioError :=
      fun x hx => h x (List.mem_cons_of_mem _ hx)
    rcases henv : env port b with f | _ | _ | _
    · by_cases hf : f = probeFrame 0
      · subst hf
        simp [scanBauds, probeOnce, henv, ih hrest]
      · simp [scanBauds, probeOnce, henv, hf, ih hrest]
    · simp [scanBauds, probeOnce, henv, ih hrest]
    · simp [scanBauds, probeOnce, henv, ih hrest]
    · exact absurd henv hb

/-- C9 (amended) — scanner fault tolerance: a read that raises
`PortNotOpenError` or `TimeoutError` is treated as a non-match and the
scan continues with the next candidate; when no probe read raises any
other I/O exception, the scan returns normally, each candidate
`(port, baud)` is opened, probed and closed in order, and the result
list contains exactly the pairs whose 4-byte response equals the probe
frame `(0x00, 0x40, 0x00, 0xF0)`.  (An exception outside the two caught
classes aborts the whole scan — see the counterexample.) -/
theorem scanner_caught_errors_continue (env : Nat → Nat → ReadResult) :
    ∀ ports : List Nat, (∀ p ∈ ports, ∀ b ∈ baudRates, env p b ≠ .ioError) →
    list_devices env ports = .ok
      (ports.flatMap fun p => baudRates.filterMap fun b =>
        if env p b = .bytes (probeFrame 0) then some (p, b) else none,
       ports.flatMap fun p => baudRates.flatMap fun b =>
        [.opened p b, .wrote p b, .closed p b]) := by
  intro ports
  induction ports with
  | nil => intro _; rfl
  | cons p rest ih =>
    intro h
    have hp : ∀ b ∈ baudRates, env p b ≠ .ioError := h p (List.mem_cons_self p rest)
    have hrest : ∀ x ∈ rest, ∀ b ∈ baudRates, env x b ≠ .ioError :=
      fun x hx => h x (List.mem_cons_of_mem _ hx)
    simp [list_devices, scanBauds_eval env p baudRates hp, ih hrest]

/-- A probe environment where port 1 always raises a `SerialException`
at the read and port 2 would answer the probe correctly at 9600 baud. -/
def ioErrEnv : Nat → Nat → ReadResult :=
  fun p b =>
    if p = 1 then .ioError
    else if p = 2 ∧ b = 9600 then .bytes (probeFrame 0) else .timeout

/-- C9 (counterexample) — an I/O error that is not `PortNotOpenError`
or `TimeoutError` during the very first probe aborts the whole scan with
the exception instead of continuing: the matching candidate
`(2, 9600)` later in the scan is never reported. -/
theorem scanner_io_error_counterexample :
    list_devices ioErrEnv [1, 2] = .error .serialException ∧
    ioErrEnv 2 9600 = .bytes (probeFrame 0) := by
  decide

theorem scanner_caught_errors_continue_witness :
    (∀ p ∈ [2], ∀ b ∈ baudRates, ioErrEnv p b ≠ .ioError) ∧
      list_devices ioErrEnv [2] = .ok
        ([(2, 9600)],
         [.opened 2 57600, .wrote 2 57600, .closed 2 57600,
          .opened 2 9600, .wrote 2 9600, .closed 2 9600,
          .opened 2 38400, .wrote 2 38400, .closed 2 38400,
          .opened 2 19200, .wrote 2 19200, .closed 2 19200]) :=
  ⟨by decide, scanner_caught_errors_continue ioErrEnv [2] (by decide)⟩

/-! ## Codec round-trip analysis -/

/-- Banker's rounding moves a rational by at most one half. -/
theorem pyRound_bounds (q : ℚ) : q - 1/2 ≤ (pyRound q : ℚ) ∧ (pyRound q : ℚ) ≤ q + 1/2 := by
  have hf0 : (0:ℚ) ≤ q - ⌊q⌋ := sub_nonneg.mpr (Int.floor_le q)
  have hf1 : q - ⌊q⌋ < 1 := by
    have := Int.lt_floor_add_one q
    linarith
  simp only [pyRound]
  by_cases h1 : q - (⌊q⌋:ℚ) < 1/2
  · rw [if_pos h1]
    constructor <;> linarith
  · rw [if_neg h1]
    by_cases h2 : (1:ℚ)/2 < q - ⌊q⌋
    · rw [if_pos h2]
      push_cast
      constructor <;> linarith
    · rw [if_neg h2]
      split <;> push_cast <;> constructor <;> linarith

/-- Evaluation of `_map` on an in-range input whose rounded code lies in
the 16-bit range. -/
theorem map_eval (v mn mx : ℚ) (hlt : mn < mx) (h0 : mn ≤ v) (h1 : v ≤ mx)
    (hc0 : 0 ≤ pyRound ((v - mn) / (mx - mn) * 65535))
    (hc1 : pyRound ((v - mn) / (mx - mn) * 65535) ≤ 65535) :
    _map v mn mx = .ok ((pyRound ((v - mn) / (mx - mn) * 65535)).toNat / 256,
        (pyRound ((v - mn) / (mx - mn) * 65535)).toNat % 256) := by
  have hΔ : (0:ℚ) < mx - mn := by linarith
  simp only [_map]
  rw [if_pos ⟨h0, h1⟩, if_neg (ne_of_gt hΔ), if_neg (by push_neg; exact ⟨hc0, hc1⟩)]

/-- Recombining the two big-endian bytes of a nonnegative 16-bit code. -/
theorem unmap_toNat (c : ℤ) (hc0 : 0 ≤ c) (mn mx : ℚ) :
    _unmap (c.toNat / 256, c.toNat % 256) mn mx = (c:ℚ) / 65536 * (mx - mn) + mn := by
  simp only [_unmap]
  have hrec : c.toNat / 256 * 0x100 + c.toNat % 256 = c.toNat := Nat.div_add_mod' c.toNat 256
  rw [hrec]
  have hcast : ((c.toNat : ℚ)) = (c : ℚ) := by
    exact_mod_cast Int.toNat_of_nonneg hc0
  rw [hcast]

/-- C4 (counterexample) — at `min = 0`, `max = 65535`,
`v = 65534.25`: the code rounds down to 65534, and the decoder's
division by 65536 (rather than 65535) pulls the reconstructed value
`65534·65535/65536` about 1.25 encoding steps below `v`, violating the
claimed one-step bound `(max-min)/65535 = 1`. -/
theorem codec_one_step_counterexample :
    _map (262137/4) 0 65535 = .ok (255, 254) ∧
    (65535 - 0) / 65535 < |_unmap (255, 254) 0 65535 - 262137/4| := by
  constructor
  · have h : pyRound (262137/4) = 65534 := by norm_num [pyRound]
    norm_num [_map, h]
    decide
  · have hu : _unmap (255, 254) 0 65535 = 65534 * 65535 / 65536 := by
      norm_num [_unmap]
    rw [hu, lt_abs]
    right
    norm_num

/-- C4 (amended) — for `min < max` and `min ≤ v ≤ max`, encoding
succeeds and the decoded value differs from `v` by at most one and a
half encoding steps: `|decode(encode(v)) - v| ≤ (3/2)·(max-min)/65536`
(the decoder divides by 65536 while the encoder scales by 65535, so the
drift grows toward the top of the range up to about 1.5 steps; the
claimed one-step bound `(max-min)/65535` fails there). -/
theorem codec_roundtrip_bound (mn mx v : ℚ) (hlt : mn < mx) (h0 : mn ≤ v) (h1 : v ≤ mx) :
    ∃ d : Nat × Nat, _map v mn mx = .ok d ∧
      |_unmap d mn mx - v| ≤ 3/2 * (mx - mn) / 65536 := by
  have hΔ : (0:ℚ) < mx - mn := by linarith
  have ht0 : 0 ≤ (v - mn) / (mx - mn) := div_nonneg (by linarith) hΔ.le
  have ht1 : (v - mn) / (mx - mn) ≤ 1 := by
    rw [div_le_one hΔ]
    linarith
  have hb := pyRound_bounds ((v - mn) / (mx - mn) * 65535)
  have hc0 : 0 ≤ pyRound ((v - mn) / (mx - mn) * 65535) := by
    by_contra hneg
    push_neg at hneg
    have hle' : pyRound ((v - mn) / (mx - mn) * 65535) ≤ -1 := by omega
    have hle : (pyRound ((v - mn) / (mx - mn) * 65535) : ℚ) ≤ -1 := by exact_mod_cast hle'
    nlinarith [hb.1]
  have hc1 : pyRound ((v - mn) / (mx - mn) * 65535) ≤ 65535 := by
    have harg : (v - mn) / (mx - mn) * 65535 ≤ 65535 := by nlinarith
    have hq : (pyRound ((v - mn) / (mx - mn) * 65535) : ℚ) < 65536 := by linarith [hb.2]
    have : pyRound ((v - mn) / (mx - mn) * 65535) < 65536 := by exact_mod_cast hq
    omega
  refine ⟨_, map_eval v mn mx hlt h0 h1 hc0 hc1, ?_⟩
  rw [unmap_toNat _ hc0]
  have key1 : -(3/2) ≤ (pyRound ((v - mn) / (mx - mn) * 65535) : ℚ) -
      65536 * ((v - mn) / (mx - mn)) := by
    linarith [hb.1]
  have key2 : (pyRound ((v - mn) / (mx - mn) * 65535) : ℚ) -
      65536 * ((v - mn) / (mx - mn)) ≤ 3/2 := by
    linarith [hb.2]
  have habs : |(pyRound ((v - mn) / (mx - mn) * 65535) : ℚ) -
      65536 * ((v - mn) / (mx - mn))| ≤ 3/2 := abs_le.mpr ⟨key1, key2⟩
  have hexpand : (pyRound ((v - mn) / (mx - mn) * 65535) : ℚ) / 65536 * (mx - mn) + mn - v =
      ((pyRound ((v - mn) / (mx - mn) * 65535) : ℚ) -
        65536 * ((v - mn) / (mx - mn))) / 65536 * (mx - mn) := by
    field_simp
    ring
  rw [hexpand, abs_mul, abs_div, abs_of_pos hΔ]
  have h655 : |(65536:ℚ)| = 65536 := by norm_num
  rw [h655]
  have hmul := mul_le_mul_of_nonneg_right habs hΔ.le
  linarith [hmul]

theorem codec_roundtrip_bound_witness :
    ((0:ℚ) < 1 ∧ (0:ℚ) ≤ 1/2 ∧ (1/2:ℚ) ≤ 1) ∧
      ∃ d : Nat × Nat, _map (1/2) 0 1 = .ok d ∧
        |_unmap d 0 1 - 1/2| ≤ 3/2 * (1 - 0) / 65536 :=
  ⟨by norm_num, codec_roundtrip_bound 0 1 (1/2) (by norm_num) (by norm_num) (by norm_num)⟩

/-- C10 (counterexample) — a device with two channels at addresses 1 and
2: the address set is not `{0, 1}`, yet the in-bounds index 1 does *not*
raise `KeyError`; it retrieves the channel stored under key 1. -/
theorem getitem_key_lookup_counterexample :
    channelKeys ⟨true, [(1, ⟨1, 1⟩), (2, ⟨2, 1⟩)]⟩ ≠ [0, 1] ∧
    ((0 : ℤ) ≤ 1 ∧ (1 : ℤ) < 2) ∧
    getitem ⟨true, [(1, ⟨1, 1⟩), (2, ⟨2, 1⟩)]⟩ 1 = .ok ⟨1, 1⟩ := by
  decide

/-- C10 (amended) — `device[i]` raises `IndexError` unless
`0 ≤ i < number of channels`; an in-bounds index is then looked up as a
dictionary key, raising `KeyError` exactly when no channel has address
`i`; consequently on a device none of whose addresses lies below the
channel count (e.g. a single channel at address 5) every in-bounds index
raises `KeyError`. -/
theorem getitem_key_lookup (d : Device) (i : ℤ) :
    (¬ (0 ≤ i ∧ i < d.channels.length) → getitem d i = .error .indexError) ∧
    ((0 ≤ i ∧ i < d.channels.length) → i.toNat ∉ channelKeys d →
      getitem d i = .error .keyError) ∧
    ((0 ≤ i ∧ i < d.channels.length) → ∀ ch, getitem d i = .ok ch →
      (i.toNat, ch) ∈ d.channels) ∧
    (∀ m : Nat, ∀ j : ℤ, 0 ≤ j → j < 1 →
      getitem ⟨true, [(5, ⟨5, m⟩)]⟩ j = .error .keyError) := by
  refine ⟨fun h => by simp [getitem, h], fun h hk => ?_, fun h ch hch => ?_, fun m j h0 h1 => ?_⟩
  · rw [getitem, if_neg (not_not_intro h), lookup_none_of_not_mem _ _ hk]
  · rw [getitem, if_neg (not_not_intro h)] at hch
    rcases hl : d.channels.lookup i.toNat with _ | c
    · rw [hl] at hch; cases hch
    · rw [hl] at hch
      cases hch
      exact mem_of_lookup_some _ _ _ hl
  · have hj : j = 0 := by omega
    subst hj
    norm_num [getitem, List.lookup]
    rfl

theorem getitem_key_lookup_witness :
    (¬ ((0 : ℤ) ≤ 2 ∧ (2 : ℤ) < 1) ∧ ((0 : ℤ) ≤ 0 ∧ (0 : ℤ) < 1)) ∧
      getitem ⟨true, [(5, ⟨5, 3⟩)]⟩ 2 = .error .indexError ∧
      getitem ⟨true, [(5, ⟨5, 3⟩)]⟩ 0 = .error .keyError :=
  by
  refine ⟨by decide, ?_, ?_⟩
  · exact (getitem_key_lookup ⟨true, [(5, ⟨5, 3⟩)]⟩ 2).1 (by decide)
  · have h4 := (getitem_key_lookup ⟨true, [(5, ⟨5, 3⟩)]⟩ 0).2.2.2
    exact h4 3 0 (by decide) (by decide)

end SupraCon
